import Mathlib

/-!
# Verification of the telegram relay pipeline

Shallow embedding of the message-routing and delivery pipeline of the
`telegram_translator-rus` repository: the rate-limited send queue
(`MessageQueueService`), the message-identity mapper
(`MessageMappingService`), the text rewriter (`TextProcessorService`),
the channel configuration parser (`ChannelConfigParserService`) and the
reply-resolution fragment of `MessageSenderService.sendSingleMessage`.

JavaScript-specific behaviour (truthiness, `parseInt`, `String.replace`
with and without the global flag, `Map` get/set) is modelled explicitly.
-/

/-! ## JavaScript value primitives

A JS `number` that may be `NaN` is modelled as `Option Int` (`none` = NaN);
integer ids in this program are always whole numbers.  An optional field
(`number | undefined`) adds one more `Option` layer. -/

/-- A JS number restricted to integer values; `none` models `NaN`. -/
abbrev JsNum := Option Int

/-- Rendering of a JS number in template-string interpolation:
`NaN` prints as `"NaN"`. -/
def jsNumToString : JsNum → String
  | some n => toString n
  | none => "NaN"

/-- Truthiness of a JS number: `0` and `NaN` are falsy. -/
def jsTruthyNum : JsNum → Bool
  | some n => n != 0
  | none => false

/-- Truthiness of a `number | undefined` value:
`undefined`, `0` and `NaN` are falsy. -/
def jsTruthyOptNum : Option JsNum → Bool
  | some v => jsTruthyNum v
  | none => false

/-- Strict equality `===` on JS numbers: `NaN === NaN` is `false`. -/
def jsStrictEq : JsNum → JsNum → Bool
  | some a, some b => a == b
  | _, _ => false

/-- Truthiness of a `string | undefined` value: `undefined` and `""` are falsy. -/
def jsTruthyStr : Option String → Bool
  | some s => s ≠ ""
  | none => false

/-- Case-sensitive list prefix test (used to model JS substring search). -/
def prefixCS : List Char → List Char → Bool
  | [], _ => true
  | _ :: _, [] => false
  | a :: as, b :: bs => a == b && prefixCS as bs

/-- Does `pat` occur (case-sensitively) anywhere in `s`?
Models the search performed by `String.prototype.includes` and by a
non-global `String.prototype.replace`. -/
def occursCS (pat : List Char) : List Char → Bool
  | [] => pat.isEmpty
  | c :: cs => prefixCS pat (c :: cs) || occursCS pat cs

/-- `String.prototype.includes`. -/
def jsIncludes (s pat : String) : Bool :=
  occursCS pat.toList s.toList

/-- ASCII lower-casing of one character (the configured patterns are ASCII,
where the regex `i` flag coincides with ASCII case folding). -/
def asciiLower (c : Char) : Char :=
  if 'A' ≤ c ∧ c ≤ 'Z' then Char.ofNat (c.toNat + 32) else c

/-- Case-insensitive (ASCII) list prefix test. -/
def prefixCI : List Char → List Char → Bool
  | [], _ => true
  | _ :: _, [] => false
  | a :: as, b :: bs => asciiLower a == asciiLower b && prefixCI as bs

/-- Does `pat` occur case-insensitively anywhere in `s`? -/
def occursCI (pat : List Char) : List Char → Bool
  | [] => pat.isEmpty
  | c :: cs => prefixCI pat (c :: cs) || occursCI pat cs

/-- `String.prototype.split` with a single-character separator:
splits at every occurrence, keeping empty fields. -/
def splitCharAux (sep : Char) : List Char → List Char → List String
  | [], acc => [acc.reverse.asString]
  | c :: cs, acc =>
      if c == sep then acc.reverse.asString :: splitCharAux sep cs []
      else splitCharAux sep cs (c :: acc)

/-- `s.split(sep)` for a one-character separator. -/
def jsSplit (sep : Char) (s : String) : List String :=
  splitCharAux sep s.toList []

/-- Common whitespace trimmed by `String.prototype.trim`. -/
def isJsSpace (c : Char) : Bool :=
  c == ' ' || c == '\t' || c == '\n' || c == '\r'

/-- `String.prototype.trim` (common-whitespace model). -/
def jsTrim (s : String) : String :=
  (((s.toList.dropWhile isJsSpace).reverse.dropWhile isJsSpace).reverse).asString

/-- Value of a maximal leading run of decimal digits; `none` when the run
is empty. -/
def leadingDigitsVal : List Char → Option Nat → Option Nat
  | c :: cs, acc =>
      if c.isDigit then
        leadingDigitsVal cs (some ((acc.getD 0) * 10 + (c.toNat - '0'.toNat)))
      else acc
  | [], acc => acc

/-- JS `parseInt(s)` with no radix argument, for decimal input: trims
whitespace, accepts an optional sign, parses the maximal leading digit run
and yields `NaN` (`none`) when there is none.  (The `0x` hexadecimal
auto-detection of `parseInt` is not modelled; the configuration ids this
program parses are decimal.) -/
def jsParseInt (s : String) : JsNum :=
  match (jsTrim s).toList with
  | '-' :: rest => (leadingDigitsVal rest none).map (fun n => -(n : Int))
  | '+' :: rest => (leadingDigitsVal rest none).map (fun n => (n : Int))
  | l => (leadingDigitsVal l none).map (fun n => (n : Int))

/-- ASCII `String.prototype.toLowerCase`. -/
def jsToLower (s : String) : String :=
  (s.toList.map asciiLower).asString

/-! ## `telegram.constants.ts` -/

/-- `MAX_RETRY_ATTEMPTS` from `src/common/constants/telegram.constants.ts`. -/
def MAX_RETRY_ATTEMPTS : Nat := 3

/-! ## `MessageQueueService`

From the `message-queue.service` source: a FIFO of `QueuedMessage`s with a
single consumer loop.  The unit's opaque content (single message or album
plus its route) is abstracted as a `payload` of an arbitrary type; the
queue service reads and writes only `retryCount`.  The outcome of the
caller-supplied `processorFn` on each popped unit is given by an oracle
from the popped unit (including its current `retryCount`) to a result;
a thrown error carries the fields inspected by `isFloodWaitError`.
The `sleep` calls (inter-message delay and flood-wait backoff) and the
wait-time extraction feeding them have no effect on the queue contents or
on the dispatch trace and are not modelled. -/

/-- The error value caught by `startProcessing`: constructor name and
optional `message` text, the two fields `isFloodWaitError` inspects. -/
structure SendError where
  ctorName : String
  message : Option String
deriving DecidableEq

/-- Result of one `processorFn` call: normal return or a thrown error. -/
inductive SendOutcome where
  | ok : SendOutcome
  | err : SendError → SendOutcome
deriving DecidableEq

/-- A queued send unit: opaque payload plus the mutable `retryCount`
(`undefined` initially, hence `Option Nat`). -/
structure QueuedMessage (α : Type) where
  payload : α
  retryCount : Option Nat
deriving DecidableEq

/-- `MessageQueueService.isFloodWaitError`:
`error.constructor.name === "FloodWaitError" ||
 error.message?.includes("A wait of") ||
 error.message?.includes("seconds is required")`. -/
def isFloodWaitError (e : SendError) : Bool :=
  e.ctorName == "FloodWaitError" ||
    (match e.message with
     | some msg => jsIncludes msg "A wait of" || jsIncludes msg "seconds is required"
     | none => false)

/-- `MessageQueueService.handleSendError`, restricted to its effect on the
queue: on a flood-wait error the unit's `retryCount` is incremented
(`(retryCount || 0) + 1`) and, if still `<= maxRetryAttempts`, the unit is
re-inserted at the front (`unshift`); otherwise, and on every non-flood
error, the unit is dropped. -/
def handleSendError {α : Type} (e : SendError) (m : QueuedMessage α)
    (q : List (QueuedMessage α)) : List (QueuedMessage α) :=
  if isFloodWaitError e then
    let rc := m.retryCount.getD 0 + 1
    if rc ≤ MAX_RETRY_ATTEMPTS then { m with retryCount := some rc } :: q else q
  else q

/-- Termination weight of one queued unit: positive, and strictly decreased
by a flood-wait requeue. -/
def queueWeight {α : Type} (m : QueuedMessage α) : Nat :=
  (MAX_RETRY_ATTEMPTS + 1 - m.retryCount.getD 0) + 1

/-- Termination measure of the whole queue. -/
def queueMeasure {α : Type} (q : List (QueuedMessage α)) : Nat :=
  (q.map queueWeight).sum

/-- The body of the `while (this.messageQueue.length > 0)` loop of
`MessageQueueService.startProcessing`: pop the head, invoke the processor,
on success continue with the rest, on a thrown error continue with the
queue produced by `handleSendError`.  Returns the dispatch trace: the
sequence of `processorFn` invocations (popped unit, outcome). -/
def processQueueAux {α : Type} (oracle : QueuedMessage α → SendOutcome) :
    List (QueuedMessage α) → List (QueuedMessage α × SendOutcome)
  | [] => []
  | m :: rest =>
    match oracle m with
    | .ok => (m, .ok) :: processQueueAux oracle rest
    | .err e => (m, .err e) :: processQueueAux oracle (handleSendError e m rest)
termination_by q => queueMeasure q
decreasing_by
  · simp only [queueMeasure, List.map_cons, List.sum_cons, queueWeight, MAX_RETRY_ATTEMPTS]
    omega
  · simp only [handleSendError]
    split
    · split
      · simp only [queueMeasure, List.map_cons, List.sum_cons, queueWeight,
          MAX_RETRY_ATTEMPTS, Option.getD_some]
        simp only [MAX_RETRY_ATTEMPTS] at *
        omega
      · simp only [queueMeasure, List.map_cons, List.sum_cons, queueWeight, MAX_RETRY_ATTEMPTS]
        omega
    · simp only [queueMeasure, List.map_cons, List.sum_cons, queueWeight, MAX_RETRY_ATTEMPTS]
      omega

/-- The queues observed at the top of each iteration of the consumer loop
(each paired with the `isProcessingQueue` flag, which the loop never
touches while running).  Same recursion as `processQueueAux`. -/
def loopQueues {α : Type} (oracle : QueuedMessage α → SendOutcome) :
    List (QueuedMessage α) → List (List (QueuedMessage α))
  | [] => []
  | m :: rest =>
    (m :: rest) ::
      (match oracle m with
       | .ok => loopQueues oracle rest
       | .err e => loopQueues oracle (handleSendError e m rest))
termination_by q => queueMeasure q
decreasing_by
  · simp only [queueMeasure, List.map_cons, List.sum_cons, queueWeight, MAX_RETRY_ATTEMPTS]
    omega
  · simp only [handleSendError]
    split
    · split
      · simp only [queueMeasure, List.map_cons, List.sum_cons, queueWeight,
          MAX_RETRY_ATTEMPTS, Option.getD_some]
        simp only [MAX_RETRY_ATTEMPTS] at *
        omega
      · simp only [queueMeasure, List.map_cons, List.sum_cons, queueWeight, MAX_RETRY_ATTEMPTS]
        omega
    · simp only [queueMeasure, List.map_cons, List.sum_cons, queueWeight, MAX_RETRY_ATTEMPTS]
      omega

/-- The mutable state of `MessageQueueService`: the queue array and the
`isProcessingQueue` running flag. -/
structure QueueState (α : Type) where
  messageQueue : List (QueuedMessage α)
  isProcessingQueue : Bool
deriving DecidableEq

/-- `MessageQueueService.startProcessing`, big-step: if the running flag is
already set the call returns immediately with no dispatch; otherwise the
flag is set, the loop consumes the queue until it is empty (the dispatch
trace is `processQueueAux`; the queues seen while the flag is held are
`loopQueues`), and the flag is cleared. -/
def startProcessing {α : Type} (oracle : QueuedMessage α → SendOutcome)
    (s : QueueState α) : QueueState α × List (QueuedMessage α × SendOutcome) :=
  if s.isProcessingQueue then (s, [])
  else (⟨[], false⟩, processQueueAux oracle s.messageQueue)

/-- `TranslatorService.addToQueue` composed with
`MessageQueueService.addToQueue`: push the unit at the tail, then start the
consumer loop unless `isProcessing()` reports it already running. -/
def addToQueue {α : Type} (oracle : QueuedMessage α → SendOutcome)
    (m : QueuedMessage α) (s : QueueState α) :
    QueueState α × List (QueuedMessage α × SendOutcome) :=
  let s1 : QueueState α := ⟨s.messageQueue ++ [m], s.isProcessingQueue⟩
  if s1.isProcessingQueue then (s1, []) else startProcessing oracle s1

/-- Number of dispatch attempts for units with a given payload in a trace. -/
def attemptsFor {α : Type} [DecidableEq α] (p : α)
    (tr : List (QueuedMessage α × SendOutcome)) : Nat :=
  tr.countP (fun ev => ev.1.payload == p)

/-! ## `MessageMappingService`

From the `message-mapping.service` source: a
`Map<number, Map<string, number>>` from source message id to a per-target
map keyed by the string `"channelId:topicId"` (or `"channelId"` when the
topic id is absent).  JS `Map` get/set semantics are modelled by an
association list with replace-on-set; `Map` keys compare with
SameValueZero, under which `NaN` equals `NaN`, matching decidable equality
on `JsNum`. -/

/-- JS `Map.prototype.get` on an association list. -/
def mapGet {κ ν : Type} [DecidableEq κ] : List (κ × ν) → κ → Option ν
  | [], _ => none
  | (k, v) :: rest, key => if k = key then some v else mapGet rest key

/-- JS `Map.prototype.set` on an association list: replaces the value of
an existing key in place, otherwise appends. -/
def mapSet {κ ν : Type} [DecidableEq κ] : List (κ × ν) → κ → ν → List (κ × ν)
  | [], key, v => [(key, v)]
  | (k, w) :: rest, key, v =>
      if k = key then (key, v) :: rest else (k, w) :: mapSet rest key v

/-- The `messageMapping` field: source message id → (key string → target
message id). -/
abbrev MappingState := List (JsNum × List (String × JsNum))

/-- `MessageMappingService.getMappingKey`:
`topicId ? `channelId:topicId` : `channelId``. -/
def getMappingKey (channelId : JsNum) (topicId : Option JsNum) : String :=
  if jsTruthyOptNum topicId then
    jsNumToString channelId ++ ":" ++ jsNumToString (topicId.getD none)
  else
    jsNumToString channelId

/-- `MessageMappingService.setMapping`: ensure an inner map exists for the
source id, then set the entry at `getMappingKey`. -/
def setMapping (st : MappingState) (sourceMessageId targetChannelId targetMessageId : JsNum)
    (targetTopicId : Option JsNum) : MappingState :=
  let inner := (mapGet st sourceMessageId).getD []
  mapSet st sourceMessageId
    (mapSet inner (getMappingKey targetChannelId targetTopicId) targetMessageId)

/-- `MessageMappingService.getMapping`. -/
def getMapping (st : MappingState) (sourceMessageId targetChannelId : JsNum)
    (targetTopicId : Option JsNum) : Option JsNum :=
  match mapGet st sourceMessageId with
  | none => none
  | some inner => mapGet inner (getMappingKey targetChannelId targetTopicId)

/-- A call in a `setMapping` history. -/
inductive MapOp where
  | set (sourceMessageId targetChannelId targetMessageId : JsNum)
      (targetTopicId : Option JsNum)

/-- Replay of a `setMapping` call history from the initial empty map. -/
def runMapOps (ops : List MapOp) : MappingState :=
  ops.foldl (fun st op => match op with
    | .set s c v t => setMapping st s c v t) []

/-- Modelled from the claim words: the target message id most recently
stored for the same source id and the same mapping key, `none` when no
call stored one. -/
def lastStored (ops : List MapOp) (s : JsNum) (key : String) : Option JsNum :=
  ops.foldl (fun acc op => match op with
    | .set s' c' v t' =>
        if s' = s ∧ getMappingKey c' t' = key then some v else acc) none

/-! ## `TextProcessorService`

From the `text-processor.service` source (quoted in full in
`REFACTORING_PHASE1_SUMMARY.md`): `replaceText` chains two global
case-insensitive regex replacements and two plain-string replacements
(which JS applies to the **first** occurrence only);
`adjustEntities` returns the entity list unchanged on every path;
`appendLinesToMessage` appends a blank line and the given lines. -/

/-- One pass of a global case-insensitive literal regex replacement
(`text.replace(/pat/gi, rep)`): scan left to right, replace every
non-overlapping match, never rescanning replacement text.  The fuel
argument (instantiated with the input length) only makes the recursion
structural; a match consumes at least one character since the configured
patterns are non-empty. -/
def replaceAllCIAux (pat rep : List Char) : Nat → List Char → List Char
  | 0, s => s
  | _, [] => []
  | fuel + 1, c :: cs =>
      if prefixCI pat (c :: cs) ∧ pat ≠ [] then
        rep ++ replaceAllCIAux pat rep fuel ((c :: cs).drop pat.length)
      else
        c :: replaceAllCIAux pat rep fuel cs

/-- `s.replace(/pat/gi, rep)` for a literal ASCII pattern. -/
def jsReplaceAllCI (s pat rep : String) : String :=
  (replaceAllCIAux pat.toList rep.toList s.toList.length s.toList).asString

/-- `s.replace(pat, rep)` with a plain-string pattern: replaces only the
first (case-sensitive) occurrence. -/
def replaceFirstAux (pat rep : List Char) : List Char → List Char
  | [] => []
  | c :: cs =>
      if prefixCS pat (c :: cs) ∧ pat ≠ [] then
        rep ++ (c :: cs).drop pat.length
      else
        c :: replaceFirstAux pat rep cs

/-- `s.replace(pat, rep)` for a plain-string pattern. -/
def jsReplaceFirst (s pat rep : String) : String :=
  (replaceFirstAux pat.toList rep.toList s.toList).asString

/-- `TextProcessorService.replaceText`:
`if (!text) return text;` then
`.replace(/@pass1fybot/gi, "@cheapmirror")
 .replace(/@shelbymirrorbot/gi, "@cheapmirror")
 .replace("https://t.me/shelbymirrorbot", "@cheapmirror")
 .replace("https://t.me/pass1fybot", "@cheapmirror")`. -/
def replaceText (text : String) : String :=
  if text = "" then text
  else
    jsReplaceFirst
      (jsReplaceFirst
        (jsReplaceAllCI
          (jsReplaceAllCI text "@pass1fybot" "@cheapmirror")
          "@shelbymirrorbot" "@cheapmirror")
        "https://t.me/shelbymirrorbot" "@cheapmirror")
      "https://t.me/pass1fybot" "@cheapmirror"

/-- `TextProcessorService.adjustEntities`: returns the entity list
unchanged on every path (the early returns for no entities and for equal
lengths, and the final fall-through, all return `entities` as-is). -/
def adjustEntities {ε : Type} (originalText newText : String)
    (entities : List ε) : List ε :=
  if entities.isEmpty then entities
  else if originalText.length = newText.length then entities
  else entities

/-- `TextProcessorService.appendLinesToMessage`. -/
def appendLinesToMessage (originalText : String) (lines : List String) : String :=
  if lines.length = 0 then originalText
  else originalText ++ "\n\n" ++ String.intercalate "\n" lines

/-! ## Album aggregation group key

From `TranslatorService.handleNewMessageMultiAll`:
`const groupKey = `${groupedId}_${channelConfig.targetChannelId}_${channelConfig.targetTopicId || 0}`;`. -/

/-- JS `x || 0` on a `number | undefined` value. -/
def jsOrZero (t : Option JsNum) : JsNum :=
  if jsTruthyOptNum t then t.getD none else some 0

/-- The aggregation key for an album fan-out entry. -/
def groupKey (groupedId : String) (targetChannelId : JsNum)
    (targetTopicId : Option JsNum) : String :=
  groupedId ++ "_" ++ jsNumToString targetChannelId ++ "_"
    ++ jsNumToString (jsOrZero targetTopicId)

/-! ## `ChannelConfigParserService`

From `channel-config-parser.service` (in `app.module.ts`): parsing of
`SEARCH_CONFIG` and `CHANNELS_CONFIG` entries into `ChannelConfig` routes,
with the legacy fallback.  Environment variables are passed as
`Option String` inputs (`none` = unset). -/

/-- A configured route (`ChannelConfig` interface).  `sourceId` and
`targetChannelId` come from `parseInt` and may be `NaN`; the optional
topic ids may additionally be `undefined`. -/
structure ChannelConfig where
  sourceId : JsNum
  sourceTopicId : Option JsNum
  targetChannelId : JsNum
  targetTopicId : Option JsNum
  searchKeyword : Option String
deriving DecidableEq

/-- `id ? parseInt(id) : undefined` for an optional trimmed field. -/
def jsOptTopic (o : Option String) : Option JsNum :=
  if jsTruthyStr o then some (jsParseInt (o.getD "")) else none

/-- One iteration of the `parseMultiChannelConfig` entry loop: split the
entry on colons, read the positions according to the 4-part or 3-part
layout, skip the entry (`continue`) when the source or target field is
missing or empty, `parseInt` the rest and push the route. -/
def multiChannelStep (channels : List ChannelConfig) (entry : String) : List ChannelConfig :=
  let parts := jsSplit ':' entry
  let sourceId := (parts.get? 0).map jsTrim
  let sourceTopicId :=
    if parts.length == 4 then (parts.get? 1).map jsTrim else none
  let targetChannelId :=
    if parts.length == 4 then (parts.get? 2).map jsTrim else (parts.get? 1).map jsTrim
  let targetTopicId :=
    if parts.length == 4 then (parts.get? 3).map jsTrim else (parts.get? 2).map jsTrim
  if jsTruthyStr sourceId && jsTruthyStr targetChannelId then
    channels ++ [{ sourceId := jsParseInt (sourceId.getD "")
                   sourceTopicId := jsOptTopic sourceTopicId
                   targetChannelId := jsParseInt (targetChannelId.getD "")
                   targetTopicId := jsOptTopic targetTopicId
                   searchKeyword := none }]
  else channels

/-- `ChannelConfigParserService.parseMultiChannelConfig`: split on commas
and run the entry loop. -/
def parseMultiChannelConfig (channelsConfig : String) : List ChannelConfig :=
  (jsSplit ',' channelsConfig).foldl multiChannelStep []

/-- `ChannelConfigParserService.parseSearchConfig`: entries
`s-keyword:sourceId:sourceTopicId:targetChannelId`; entries not starting
with `s-`, with fewer than 3 colon fields, or with an empty keyword,
source or target are skipped. -/
def parseSearchConfig (searchConfig : String) : List ChannelConfig :=
  (jsSplit ',' searchConfig).foldl (fun channels entry =>
    if !(prefixCS "s-".toList (jsTrim entry).toList) then channels
    else
      let parts := jsSplit ':' entry
      if parts.length < 3 then channels
      else
        let keyword := (parts.get? 0).map (fun p => ((jsTrim p).toList.drop 2).asString)
        let sourceId := (parts.get? 1).map jsTrim
        let sourceTopicId := (parts.get? 2).map jsTrim
        let targetChannelId := (parts.get? 3).map jsTrim
        if jsTruthyStr keyword && jsTruthyStr sourceId && jsTruthyStr targetChannelId then
          channels ++ [{ sourceId := jsParseInt (sourceId.getD "")
                         sourceTopicId := jsOptTopic sourceTopicId
                         targetChannelId := jsParseInt (targetChannelId.getD "")
                         targetTopicId := none
                         searchKeyword := some (jsToLower (keyword.getD "")) }]
        else channels) []

/-- Result record of `parseConfiguration`
(`ParsedChannelConfiguration`). -/
structure ParsedChannelConfiguration where
  channels : List ChannelConfig
  useLegacyMode : Bool
  sourceChannelId : Option JsNum
  targetChannelId : Option JsNum
  useDirectIds : Option Bool
deriving DecidableEq

/-- `ChannelConfigParserService.parseLegacyConfig` on the
`SOURCE_CHANNEL_ID` / `TARGET_CHANNEL_ID` environment values. -/
def parseLegacyConfig (sourceEnv targetEnv : Option String) : ParsedChannelConfiguration :=
  if jsTruthyStr sourceEnv && jsTruthyStr targetEnv then
    { channels := [], useLegacyMode := true
      sourceChannelId := some (jsParseInt (sourceEnv.getD ""))
      targetChannelId := some (jsParseInt (targetEnv.getD ""))
      useDirectIds := some true }
  else
    { channels := [], useLegacyMode := true
      sourceChannelId := none, targetChannelId := none
      useDirectIds := some false }

/-- `ChannelConfigParserService.parseConfiguration`: search routes first,
then multi-channel routes; throws (`Except.error`) exactly the
`"No valid channels configured in CHANNELS_CONFIG"` error when
`CHANNELS_CONFIG` is set (truthy) and the combined route list is empty;
falls back to legacy mode when no mode produced routes. -/
def parseConfiguration (searchEnv channelsEnv sourceEnv targetEnv : Option String) :
    Except String ParsedChannelConfiguration :=
  let channels :=
    if jsTruthyStr searchEnv then parseSearchConfig (searchEnv.getD "") else []
  if jsTruthyStr channelsEnv then
    let channels := channels ++ parseMultiChannelConfig (channelsEnv.getD "")
    if channels.length = 0 then
      .error "No valid channels configured in CHANNELS_CONFIG"
    else
      .ok { channels := channels, useLegacyMode := false
            sourceChannelId := none, targetChannelId := none, useDirectIds := none }
  else if channels.length = 0 then
    .ok (parseLegacyConfig sourceEnv targetEnv)
  else
    .ok { channels := channels, useLegacyMode := false
          sourceChannelId := none, targetChannelId := none, useDirectIds := none }

/-- Whether an `Except` result is the thrown case. -/
def jsIsError {ε α : Type} : Except ε α → Bool
  | .error _ => true
  | .ok _ => false

/-- Claim-side reading of one `CHANNELS_CONFIG` entry: the route whose
fields are the `parseInt` values of the colon-separated positions
(4-part layout `sourceId:sourceTopicId:targetChannelId:targetTopicId`,
otherwise `sourceId:targetChannelId:targetTopicId`), or `none` when the
source or target position is missing or empty after trimming. -/
def routeOfEntry (entry : String) : Option ChannelConfig :=
  let parts := jsSplit ':' entry
  let sourceId := (parts.get? 0).map jsTrim
  let sourceTopicId :=
    if parts.length == 4 then (parts.get? 1).map jsTrim else none
  let targetChannelId :=
    if parts.length == 4 then (parts.get? 2).map jsTrim else (parts.get? 1).map jsTrim
  let targetTopicId :=
    if parts.length == 4 then (parts.get? 3).map jsTrim else (parts.get? 2).map jsTrim
  if jsTruthyStr sourceId && jsTruthyStr targetChannelId then
    some { sourceId := jsParseInt (sourceId.getD "")
           sourceTopicId := jsOptTopic sourceTopicId
           targetChannelId := jsParseInt (targetChannelId.getD "")
           targetTopicId := jsOptTopic targetTopicId
           searchKeyword := none }
  else none

/-! ## `MessageSenderService.sendSingleMessage` — reply resolution

From the `message-sender.service` source: the fragment computing
`targetReplyToMsgId` and the `replyTo` field of `sendOptions`.  The
message's `replyTo?.replyToMsgId` and `replyTo?.replyToTopicId` are
`number | undefined` values. -/

/-- Strict equality `===` on `number | undefined` values. -/
def jsStrictEqOpt : Option JsNum → Option JsNum → Bool
  | some a, some b => jsStrictEq a b
  | none, none => true
  | _, _ => false

/-- `const isReplyToTopic = replyToMsgId &&
channelConfig.sourceTopicId !== undefined &&
replyToMsgId === channelConfig.sourceTopicId;` -/
def isReplyToTopic (replyToMsgId : Option JsNum) (cfg : ChannelConfig) : Bool :=
  jsTruthyOptNum replyToMsgId && cfg.sourceTopicId.isSome &&
    jsStrictEqOpt replyToMsgId cfg.sourceTopicId

/-- `const isActualReply = replyToMsgId && !isReplyToTopic &&
(!replyToTopicId || replyToMsgId !== replyToTopicId);` -/
def isActualReply (replyToMsgId replyToTopicId : Option JsNum)
    (cfg : ChannelConfig) : Bool :=
  jsTruthyOptNum replyToMsgId && !(isReplyToTopic replyToMsgId cfg) &&
    (!(jsTruthyOptNum replyToTopicId) || !(jsStrictEqOpt replyToMsgId replyToTopicId))

/-- `targetReplyToMsgId`: resolved through
`messageMappingService.getMapping` only when `isActualReply` holds. -/
def targetReplyToMsgId (mapper : MappingState)
    (replyToMsgId replyToTopicId : Option JsNum) (cfg : ChannelConfig) : Option JsNum :=
  if isActualReply replyToMsgId replyToTopicId cfg then
    match replyToMsgId with
    | some v => getMapping mapper v cfg.targetChannelId cfg.targetTopicId
    | none => none
  else none

/-- The `replyTo` send option:
`if (targetReplyToMsgId) sendOptions.replyTo = targetReplyToMsgId;
else if (channelConfig.targetTopicId) sendOptions.replyTo = channelConfig.targetTopicId;` -/
def sendOptionsReplyTo (mapper : MappingState)
    (replyToMsgId replyToTopicId : Option JsNum) (cfg : ChannelConfig) : Option JsNum :=
  let resolved := targetReplyToMsgId mapper replyToMsgId replyToTopicId cfg
  if jsTruthyOptNum resolved then resolved
  else if jsTruthyOptNum cfg.targetTopicId then cfg.targetTopicId
  else none

/-! ## Queue lemmas -/

theorem processQueueAux_nil {α : Type} (oracle : QueuedMessage α → SendOutcome) :
    processQueueAux oracle [] = [] := by
  simp [processQueueAux]

theorem processQueueAux_cons_ok {α : Type} (oracle : QueuedMessage α → SendOutcome)
    (m : QueuedMessage α) (rest : List (QueuedMessage α)) (h : oracle m = .ok) :
    processQueueAux oracle (m :: rest) = (m, .ok) :: processQueueAux oracle rest := by
  rw [processQueueAux]
  simp [h]

theorem processQueueAux_cons_err {α : Type} (oracle : QueuedMessage α → SendOutcome)
    (m : QueuedMessage α) (rest : List (QueuedMessage α)) (e : SendError)
    (h : oracle m = .err e) :
    processQueueAux oracle (m :: rest) =
      (m, .err e) :: processQueueAux oracle (handleSendError e m rest) := by
  rw [processQueueAux]
  simp [h]

theorem handleSendError_requeue {α : Type} (e : SendError) (m : QueuedMessage α)
    (q : List (QueuedMessage α)) (hf : isFloodWaitError e = true)
    (hrc : m.retryCount.getD 0 + 1 ≤ MAX_RETRY_ATTEMPTS) :
    handleSendError e m q = { m with retryCount := some (m.retryCount.getD 0 + 1) } :: q := by
  simp [handleSendError, hf, hrc]

theorem handleSendError_drop {α : Type} (e : SendError) (m : QueuedMessage α)
    (q : List (QueuedMessage α)) (hf : isFloodWaitError e = true)
    (hrc : ¬ (m.retryCount.getD 0 + 1 ≤ MAX_RETRY_ATTEMPTS)) :
    handleSendError e m q = q := by
  simp [handleSendError, hf, hrc]

theorem handleSendError_not_flood {α : Type} (e : SendError) (m : QueuedMessage α)
    (q : List (QueuedMessage α)) (hf : isFloodWaitError e = false) :
    handleSendError e m q = q := by
  simp [handleSendError, hf]

theorem queueWeight_pos {α : Type} (m : QueuedMessage α) : 0 < queueWeight m := by
  simp [queueWeight]

theorem queueMeasure_cons {α : Type} (m : QueuedMessage α) (q : List (QueuedMessage α)) :
    queueMeasure (m :: q) = queueWeight m + queueMeasure q := by
  simp [queueMeasure]

theorem queueMeasure_handleSendError_lt {α : Type} (e : SendError) (m : QueuedMessage α)
    (q : List (QueuedMessage α)) :
    queueMeasure (handleSendError e m q) < queueMeasure (m :: q) := by
  by_cases hf : isFloodWaitError e = true
  · by_cases hrc : m.retryCount.getD 0 + 1 ≤ MAX_RETRY_ATTEMPTS
    · rw [handleSendError_requeue e m q hf hrc, queueMeasure_cons, queueMeasure_cons]
      have : queueWeight { m with retryCount := some (m.retryCount.getD 0 + 1) } <
          queueWeight m := by
        simp only [queueWeight, Option.getD_some, MAX_RETRY_ATTEMPTS] at *
        omega
      omega
    · rw [handleSendError_drop e m q hf hrc, queueMeasure_cons]
      have := queueWeight_pos m
      omega
  · rw [handleSendError_not_flood e m q (by simpa using hf), queueMeasure_cons]
    have := queueWeight_pos m
    omega

theorem mem_handleSendError {α : Type} (e : SendError) (m x : QueuedMessage α)
    (q : List (QueuedMessage α)) (hx : x ∈ handleSendError e m q) :
    x.payload = m.payload ∨ x ∈ q := by
  simp only [handleSendError] at hx
  split at hx
  · split at hx
    · rcases List.mem_cons.mp hx with h | h
      · left
        rw [h]
      · right
        exact h
    · right
      exact hx
  · right
    exact hx

/-- Every dispatch trace event concerns a unit whose payload was already
in the queue (requeues keep the payload). -/
theorem payload_mem_of_mem_trace {α : Type} (oracle : QueuedMessage α → SendOutcome) :
    ∀ (n : Nat) (q : List (QueuedMessage α)), queueMeasure q ≤ n →
      ∀ ev ∈ processQueueAux oracle q, ∃ m ∈ q, ev.1.payload = m.payload := by
  intro n
  induction n with
  | zero =>
    intro q hq ev hev
    match q with
    | [] =>
      rw [processQueueAux_nil] at hev
      exact absurd hev (List.not_mem_nil ev)
    | m :: rest =>
      rw [queueMeasure_cons] at hq
      have := queueWeight_pos m
      omega
  | succ n ih =>
    intro q hq ev hev
    match q with
    | [] =>
      rw [processQueueAux_nil] at hev
      exact absurd hev (List.not_mem_nil ev)
    | m :: rest =>
      cases hor : oracle m with
      | ok =>
        rw [processQueueAux_cons_ok oracle m rest hor] at hev
        rcases List.mem_cons.mp hev with h | h
        · exact ⟨m, List.mem_cons_self m rest, by rw [h]⟩
        · have hrest : queueMeasure rest ≤ n := by
            rw [queueMeasure_cons] at hq
            have := queueWeight_pos m
            omega
          obtain ⟨m', hm', hp⟩ := ih rest hrest ev h
          exact ⟨m', List.mem_cons_of_mem m hm', hp⟩
      | err e =>
        rw [processQueueAux_cons_err oracle m rest e hor] at hev
        rcases List.mem_cons.mp hev with h | h
        · exact ⟨m, List.mem_cons_self m rest, by rw [h]⟩
        · have hlt := queueMeasure_handleSendError_lt e m rest
          have hle : queueMeasure (handleSendError e m rest) ≤ n := by omega
          obtain ⟨m', hm', hp⟩ := ih _ hle ev h
          rcases mem_handleSendError e m m' rest hm' with h2 | h2
          · exact ⟨m, List.mem_cons_self m rest, by rw [hp, h2]⟩
          · exact ⟨m', List.mem_cons_of_mem m h2, hp⟩

/-! ## Loop snapshot lemmas -/

theorem loopQueues_nil {α : Type} (oracle : QueuedMessage α → SendOutcome) :
    loopQueues oracle [] = [] := by
  simp [loopQueues]

theorem loopQueues_cons {α : Type} (oracle : QueuedMessage α → SendOutcome)
    (m : QueuedMessage α) (rest : List (QueuedMessage α)) :
    loopQueues oracle (m :: rest) =
      (m :: rest) ::
        (match oracle m with
         | .ok => loopQueues oracle rest
         | .err e => loopQueues oracle (handleSendError e m rest)) := by
  rw [loopQueues]

theorem loopQueues_ne_nil {α : Type} (oracle : QueuedMessage α → SendOutcome) :
    ∀ (n : Nat) (q : List (QueuedMessage α)), queueMeasure q ≤ n →
      ∀ x ∈ loopQueues oracle q, x ≠ [] := by
  intro n
  induction n with
  | zero =>
    intro q hq x hx
    match q with
    | [] =>
      rw [loopQueues_nil] at hx
      exact absurd hx (List.not_mem_nil x)
    | m :: rest =>
      rw [queueMeasure_cons] at hq
      have := queueWeight_pos m
      omega
  | succ n ih =>
    intro q hq x hx
    match q with
    | [] =>
      rw [loopQueues_nil] at hx
      exact absurd hx (List.not_mem_nil x)
    | m :: rest =>
      rw [loopQueues_cons] at hx
      rcases List.mem_cons.mp hx with h | h
      · rw [h]
        exact List.cons_ne_nil m rest
      · cases hor : oracle m with
        | ok =>
          rw [hor] at h
          have hrest : queueMeasure rest ≤ n := by
            rw [queueMeasure_cons] at hq
            have := queueWeight_pos m
            omega
          exact ih rest hrest x h
        | err e =>
          rw [hor] at h
          have hlt := queueMeasure_handleSendError_lt e m rest
          have hle : queueMeasure (handleSendError e m rest) ≤ n := by omega
          exact ih _ hle x h

/-! ## Mapping lemmas -/

theorem mapGet_mapSet {κ ν : Type} [DecidableEq κ] (l : List (κ × ν)) (k : κ) (v : ν) :
    ∀ k2, mapGet (mapSet l k v) k2 = if k2 = k then some v else mapGet l k2 := by
  induction l with
  | nil =>
    intro k2
    by_cases h : k2 = k
    · simp [mapSet, mapGet, h]
    · simp [mapSet, mapGet, h, Ne.symm h]
  | cons p rest ih =>
    intro k2
    by_cases hk : p.1 = k
    · by_cases h2 : k2 = k
      · simp [mapSet, mapGet, hk, h2]
      · simp [mapSet, mapGet, hk, h2, Ne.symm h2]
    · by_cases h2 : k2 = p.1
      · have hne : ¬ (k2 = k) := by
          rw [h2]
          exact hk
        simp [mapSet, mapGet, hk, h2, hne]
      · simp [mapSet, mapGet, hk, h2, Ne.symm h2, ih k2]

theorem getMapping_setMapping (st : MappingState) (s c v : JsNum) (t : Option JsNum)
    (s2 c2 : JsNum) (t2 : Option JsNum) :
    getMapping (setMapping st s c v t) s2 c2 t2 =
      if s = s2 ∧ getMappingKey c t = getMappingKey c2 t2 then some v
      else getMapping st s2 c2 t2 := by
  by_cases hs : s2 = s
  · subst hs
    by_cases hkey : getMappingKey c t = getMappingKey c2 t2
    · simp [setMapping, getMapping, mapGet_mapSet, hkey]
    · rw [if_neg (by exact fun hc => hkey hc.2)]
      simp only [setMapping, getMapping, mapGet_mapSet, if_pos rfl]
      simp only [if_true]
      rw [mapGet_mapSet]
      rw [if_neg (by exact fun hc => hkey (Eq.symm hc))]
      cases hst : mapGet st s2 with
      | none => simp [hst, mapGet]
      | some inner => simp [hst]
  · rw [if_neg (by exact fun hc => hs (Eq.symm hc.1))]
    simp only [setMapping, getMapping, mapGet_mapSet]
    rw [if_neg hs]

theorem getMapping_foldl (ops : List MapOp) :
    ∀ (st : MappingState) (s c : JsNum) (t : Option JsNum),
      getMapping (ops.foldl (fun st op => match op with
        | .set s2 c2 v2 t2 => setMapping st s2 c2 v2 t2) st) s c t
        = ops.foldl (fun acc op => match op with
            | .set s2 c2 v2 t2 =>
                if s2 = s ∧ getMappingKey c2 t2 = getMappingKey c t then some v2 else acc)
            (getMapping st s c t) := by
  induction ops with
  | nil =>
    intro st s c t
    rfl
  | cons op ops ih =>
    intro st s c t
    cases op with
    | set s2 c2 v2 t2 =>
      simp only [List.foldl_cons]
      rw [ih, getMapping_setMapping]

/-! ## Text rewriter lemmas -/

theorem replaceAllCIAux_no_occur (pat rep : List Char) :
    ∀ (fuel : Nat) (s : List Char), occursCI pat s = false →
      replaceAllCIAux pat rep fuel s = s := by
  intro fuel
  induction fuel with
  | zero =>
    intro s h
    match s with
    | [] => rfl
    | c :: cs => rfl
  | succ fuel ih =>
    intro s h
    match s with
    | [] => rfl
    | c :: cs =>
      simp only [occursCI, Bool.or_eq_false_iff] at h
      rw [replaceAllCIAux, if_neg (by simp [h.1])]
      rw [ih cs h.2]

theorem replaceFirstAux_no_occur (pat rep : List Char) :
    ∀ s : List Char, occursCS pat s = false → replaceFirstAux pat rep s = s := by
  intro s
  induction s with
  | nil =>
    intro h
    rfl
  | cons c cs ih =>
    intro h
    simp only [occursCS, Bool.or_eq_false_iff] at h
    rw [replaceFirstAux, if_neg (by simp [h.1])]
    rw [ih h.2]

theorem jsReplaceAllCI_no_occur (s pat rep : String)
    (h : occursCI pat.toList s.toList = false) : jsReplaceAllCI s pat rep = s := by
  rw [jsReplaceAllCI, replaceAllCIAux_no_occur pat.toList rep.toList _ s.toList h]
  rfl

theorem jsReplaceFirst_no_occur (s pat rep : String)
    (h : occursCS pat.toList s.toList = false) : jsReplaceFirst s pat rep = s := by
  rw [jsReplaceFirst, replaceFirstAux_no_occur pat.toList rep.toList s.toList h]
  rfl

/-! ## Parser lemmas -/

theorem multiChannelStep_eq (channels : List ChannelConfig) (entry : String) :
    multiChannelStep channels entry =
      match routeOfEntry entry with
      | some r => channels ++ [r]
      | none => channels := by
  rw [multiChannelStep, routeOfEntry]
  split <;> simp_all <;> split <;> simp_all

theorem foldl_multiChannelStep (l : List String) :
    ∀ acc : List ChannelConfig,
      l.foldl multiChannelStep acc = acc ++ l.filterMap routeOfEntry := by
  induction l with
  | nil =>
    intro acc
    simp
  | cons e l ih =>
    intro acc
    rw [List.foldl_cons, List.filterMap_cons, ih, multiChannelStep_eq]
    cases hre : routeOfEntry e with
    | none => simp
    | some r => simp

/-! ## Claim theorems -/

/-- C1: the send queue dispatches units strictly in FIFO order, except
that a unit failing with a rate-limit (flood-wait) signal is re-inserted
at the front: for a queue [A, B, C] where the first attempt at A fails
with a flood-wait error and the retry succeeds, the dispatch sequence
observed by the processor function is A (fail), A (retry, success),
B, C. -/
theorem sendQueue_fifo_floodwait_front {α : Type}
    (oracle : QueuedMessage α → SendOutcome)
    (a b c : QueuedMessage α) (e : SendError)
    (ha : a.retryCount.getD 0 = 0)
    (hfail : oracle a = .err e) (hflood : isFloodWaitError e = true)
    (hretry : oracle { a with retryCount := some 1 } = .ok)
    (hb : oracle b = .ok) (hc : oracle c = .ok) :
    processQueueAux oracle [a, b, c] =
      [(a, .err e), ({ a with retryCount := some 1 }, .ok), (b, .ok), (c, .ok)] := by
  have hrc : a.retryCount.getD 0 + 1 ≤ MAX_RETRY_ATTEMPTS := by
    rw [ha]
    simp [MAX_RETRY_ATTEMPTS]
  rw [processQueueAux_cons_err oracle a [b, c] e hfail,
    handleSendError_requeue e a [b, c] hflood hrc, ha,
    processQueueAux_cons_ok _ _ _ hretry,
    processQueueAux_cons_ok _ _ _ hb,
    processQueueAux_cons_ok _ _ _ hc,
    processQueueAux_nil]

/-- C2: a queued unit whose every dispatch attempt fails with a
rate-limit error is attempted exactly `maxRetries + 1` times (4 attempts
for `MAX_RETRY_ATTEMPTS = 3`, the unit starting with retry count 0) and
then dropped; the rest of the queue is processed afterwards and the unit
is never attempted a fifth time. -/
theorem sendQueue_drops_after_max_retries {α : Type} [DecidableEq α]
    (oracle : QueuedMessage α → SendOutcome)
    (u : QueuedMessage α) (rest : List (QueuedMessage α))
    (e0 e1 e2 e3 : SendError)
    (hu : u.retryCount.getD 0 = 0)
    (h0 : oracle u = .err e0) (hf0 : isFloodWaitError e0 = true)
    (h1 : oracle { u with retryCount := some 1 } = .err e1) (hf1 : isFloodWaitError e1 = true)
    (h2 : oracle { u with retryCount := some 2 } = .err e2) (hf2 : isFloodWaitError e2 = true)
    (h3 : oracle { u with retryCount := some 3 } = .err e3) (hf3 : isFloodWaitError e3 = true)
    (hrest : ∀ m ∈ rest, m.payload ≠ u.payload) :
    processQueueAux oracle (u :: rest) =
      [(u, .err e0), ({ u with retryCount := some 1 }, .err e1),
       ({ u with retryCount := some 2 }, .err e2),
       ({ u with retryCount := some 3 }, .err e3)] ++ processQueueAux oracle rest
    ∧ attemptsFor u.payload (processQueueAux oracle (u :: rest)) = MAX_RETRY_ATTEMPTS + 1 := by
  have htrace : processQueueAux oracle (u :: rest) =
      [(u, .err e0), ({ u with retryCount := some 1 }, .err e1),
       ({ u with retryCount := some 2 }, .err e2),
       ({ u with retryCount := some 3 }, .err e3)] ++ processQueueAux oracle rest := by
    rw [processQueueAux_cons_err oracle u rest e0 h0,
      handleSendError_requeue e0 u rest hf0 (by rw [hu]; simp [MAX_RETRY_ATTEMPTS]), hu]
    norm_num [Option.getD_some]
    rw [processQueueAux_cons_err oracle _ rest e1 h1,
      handleSendError_requeue e1 _ rest hf1 (by simp [MAX_RETRY_ATTEMPTS])]
    norm_num [Option.getD_some]
    rw [processQueueAux_cons_err oracle _ rest e2 h2,
      handleSendError_requeue e2 _ rest hf2 (by simp [MAX_RETRY_ATTEMPTS])]
    norm_num [Option.getD_some]
    rw [processQueueAux_cons_err oracle _ rest e3 h3,
      handleSendError_drop e3 _ rest hf3 (by simp [MAX_RETRY_ATTEMPTS])]
  refine ⟨htrace, ?_⟩
  rw [htrace]
  have htail : attemptsFor u.payload (processQueueAux oracle rest) = 0 := by
    rw [attemptsFor, List.countP_eq_zero]
    intro ev hev
    obtain ⟨m, hm, hp⟩ :=
      payload_mem_of_mem_trace oracle (queueMeasure rest) rest (le_refl _) ev hev
    simp only [beq_iff_eq]
    rw [hp]
    exact hrest m hm
  rw [attemptsFor, List.countP_append]
  rw [attemptsFor] at htail
  rw [htail]
  simp [MAX_RETRY_ATTEMPTS, List.countP_cons]

/-- C3: a dispatch attempt failing with an error not classified as a
flood-wait signal drops the unit without re-inserting it into the queue,
and only flood-wait errors ever lead to a re-insertion. -/
theorem sendQueue_non_floodwait_dropped {α : Type}
    (oracle : QueuedMessage α → SendOutcome)
    (m : QueuedMessage α) (rest : List (QueuedMessage α)) (e : SendError)
    (he : oracle m = .err e) (hnf : isFloodWaitError e = false) :
    processQueueAux oracle (m :: rest) = (m, .err e) :: processQueueAux oracle rest
    ∧ handleSendError e m rest = rest
    ∧ ∀ (β : Type) (e2 : SendError) (m2 : QueuedMessage β) (q : List (QueuedMessage β)),
        handleSendError e2 m2 q ≠ q → isFloodWaitError e2 = true := by
  refine ⟨?_, handleSendError_not_flood e m rest hnf, ?_⟩
  · rw [processQueueAux_cons_err oracle m rest e he,
      handleSendError_not_flood e m rest hnf]
  · intro β e2 m2 q hne
    cases hf : isFloodWaitError e2 with
    | true => rfl
    | false => exact absurd (handleSendError_not_flood e2 m2 q hf) hne

/-- C4: for every sequence of `setMapping` calls, `getMapping` returns
exactly the target id most recently stored for the same source id and the
same mapping key (and `none` when none was stored); storing under one
mapping key never changes what is retrievable under a different key of
the same channel, so a mapping stored for one topic is neither retrievable
under nor lost by a different topic. -/
theorem messageMapper_get_returns_last_set :
    (∀ (ops : List MapOp) (s c : JsNum) (t : Option JsNum),
        getMapping (runMapOps ops) s c t = lastStored ops s (getMappingKey c t))
    ∧ (∀ (st : MappingState) (s c v : JsNum) (t1 t2 : Option JsNum),
        getMappingKey c t1 ≠ getMappingKey c t2 →
          getMapping (setMapping st s c v t1) s c t2 = getMapping st s c t2) := by
  constructor
  · intro ops s c t
    have h := getMapping_foldl ops [] s c t
    exact h
  · intro st s c v t1 t2 hne
    rw [getMapping_setMapping]
    rw [if_neg (by exact fun hc => hne hc.2)]

/-- C4 witness: storing source 10 -> 42 under channel -100 topic 5 leaves
lookups under topic 7 unchanged (still absent). -/
theorem messageMapper_get_returns_last_set_witness :
    getMapping (setMapping [] (some 10) (some (-100)) (some 42) (some (some 5)))
        (some 10) (some (-100)) (some (some 7))
      = getMapping [] (some 10) (some (-100)) (some (some 7)) :=
  messageMapper_get_returns_last_set.2 [] (some 10) (some (-100)) (some 42)
    (some (some 5)) (some (some 7)) (by decide)

/-- C10: a topic id of 0 is identified with an absent topic throughout:
the mapping key, the resulting `getMapping`/`setMapping` behaviour, and
the album aggregation group key are the same for topic 0 and no topic. -/
theorem topic_zero_identified_with_no_topic :
    (∀ c : JsNum, getMappingKey c (some (some 0)) = getMappingKey c none)
    ∧ (∀ (st : MappingState) (s c : JsNum),
        getMapping st s c (some (some 0)) = getMapping st s c none)
    ∧ (∀ (st : MappingState) (s c v : JsNum),
        setMapping st s c v (some (some 0)) = setMapping st s c v none)
    ∧ (∀ (g : String) (tc : JsNum), groupKey g tc (some (some 0)) = groupKey g tc none) := by
  have hkey : ∀ c : JsNum, getMappingKey c (some (some 0)) = getMappingKey c none := by
    intro c
    simp [getMappingKey, jsTruthyOptNum, jsTruthyNum]
  refine ⟨hkey, ?_, ?_, ?_⟩
  · intro st s c
    simp [getMapping, hkey]
  · intro st s c v
    simp [setMapping, hkey]
  · intro g tc
    simp [groupKey, jsOrZero, jsTruthyOptNum, jsTruthyNum]

/-- C8: for a route with a target topic, a message that is a reply to the
route source topic root (`replyToMsgId === sourceTopicId`) is not resolved
through the message mapper (for every mapper state the resolved reply id
is `none`) and the outgoing `replyTo` is the route target topic id; and
whenever the mapper is consulted (`isActualReply`), the reply is to a
message other than the route topic root. -/
theorem topic_root_reply_uses_target_topic :
    (∀ (mapper : MappingState) (cfg : ChannelConfig) (r t : Int) (rtid : Option JsNum),
        cfg.sourceTopicId = some (some r) → r ≠ 0 →
        cfg.targetTopicId = some (some t) → t ≠ 0 →
        targetReplyToMsgId mapper (some (some r)) rtid cfg = none
        ∧ sendOptionsReplyTo mapper (some (some r)) rtid cfg = some (some t))
    ∧ (∀ (rm rtid : Option JsNum) (cfg : ChannelConfig) (r : Int),
        cfg.sourceTopicId = some (some r) →
        isActualReply rm rtid cfg = true → rm ≠ some (some r)) := by
  constructor
  · intro mapper cfg r t rtid hs hr ht htt
    have hrt : isReplyToTopic (some (some r)) cfg = true := by
      simp [isReplyToTopic, jsTruthyOptNum, jsTruthyNum, jsStrictEqOpt, jsStrictEq, hs, hr]
    have har : isActualReply (some (some r)) rtid cfg = false := by
      simp [isActualReply, hrt]
    have hresolved : targetReplyToMsgId mapper (some (some r)) rtid cfg = none := by
      simp [targetReplyToMsgId, har]
    refine ⟨hresolved, ?_⟩
    simp [sendOptionsReplyTo, hresolved, jsTruthyOptNum, jsTruthyNum, ht, htt]
  · intro rm rtid cfg r hs har hrm
    subst hrm
    by_cases hr : r = 0
    · subst hr
      simp [isActualReply, jsTruthyOptNum, jsTruthyNum] at har
    · have hrt : isReplyToTopic (some (some r)) cfg = true := by
        simp [isReplyToTopic, jsTruthyOptNum, jsTruthyNum, jsStrictEqOpt, jsStrictEq, hs, hr]
      simp [isActualReply, hrt] at har

/-- C8 witness: route source topic 7, target topic 5; a reply to message 7
anchors at topic 5; a reply to message 3 counts as an actual reply and is
not the topic root. -/
theorem topic_root_reply_uses_target_topic_witness :
    targetReplyToMsgId []
        (some (some 7)) none
        { sourceId := some (-100111), sourceTopicId := some (some 7)
          targetChannelId := some (-100222), targetTopicId := some (some 5)
          searchKeyword := none } = none
    ∧ sendOptionsReplyTo []
        (some (some 7)) none
        { sourceId := some (-100111), sourceTopicId := some (some 7)
          targetChannelId := some (-100222), targetTopicId := some (some 5)
          searchKeyword := none } = some (some 5) :=
  topic_root_reply_uses_target_topic.1 []
    { sourceId := some (-100111), sourceTopicId := some (some 7)
      targetChannelId := some (-100222), targetTopicId := some (some 5)
      searchKeyword := none } 7 5 none rfl (by decide) rfl (by decide)

/-- C6 (amended): the text rewriter is the identity, hence idempotent, on
inputs containing no occurrence of any configured pattern; it is not
idempotent in general because the two URL substitutions replace only the
first occurrence (see the counterexample). -/
theorem replaceText_identity_on_clean_input (x : String)
    (h1 : occursCI "@pass1fybot".toList x.toList = false)
    (h2 : occursCI "@shelbymirrorbot".toList x.toList = false)
    (h3 : occursCS "https://t.me/shelbymirrorbot".toList x.toList = false)
    (h4 : occursCS "https://t.me/pass1fybot".toList x.toList = false) :
    replaceText x = x ∧ replaceText (replaceText x) = replaceText x := by
  have hx : replaceText x = x := by
    rw [replaceText]
    by_cases hxe : x = ""
    · simp [hxe]
    · rw [if_neg hxe]
      rw [jsReplaceAllCI_no_occur x _ _ h1]
      rw [jsReplaceAllCI_no_occur x _ _ h2]
      rw [jsReplaceFirst_no_occur x _ _ h3]
      rw [jsReplaceFirst_no_occur x _ _ h4]
  exact ⟨hx, by rw [hx, hx]⟩

/-- C6 witness: a concrete pattern-free input on which the rewriter is the
identity and idempotent. -/
theorem replaceText_identity_on_clean_input_witness :
    occursCI "@pass1fybot".toList "hello @cheapmirror".toList = false
    ∧ replaceText "hello @cheapmirror" = "hello @cheapmirror"
    ∧ replaceText (replaceText "hello @cheapmirror") = replaceText "hello @cheapmirror" :=
  ⟨by decide,
   (replaceText_identity_on_clean_input "hello @cheapmirror"
     (by decide) (by decide) (by decide) (by decide)).1,
   (replaceText_identity_on_clean_input "hello @cheapmirror"
     (by decide) (by decide) (by decide) (by decide)).2⟩

/-- C6 counterexample: an input with two occurrences of the plain-string
URL pattern needs two rewriting passes, so `rewrite (rewrite x)` differs
from `rewrite x`. -/
theorem replaceText_not_idempotent :
    replaceText (replaceText "https://t.me/pass1fybot https://t.me/pass1fybot")
      ≠ replaceText "https://t.me/pass1fybot https://t.me/pass1fybot" := by
  decide

/-- C5: evaluation at the failing input. The configured substitution
`@pass1fybot -> @cheapmirror` maps an 11-character input to a 12-character
output, so the rewrite does not preserve string length, contradicting the
claim and the code comment that the replacement maintains the same
length. -/
theorem replaceText_changes_length :
    replaceText "@pass1fybot" = "@cheapmirror"
    ∧ (replaceText "@pass1fybot").length = 12
    ∧ "@pass1fybot".length = 11
    ∧ (replaceText "@pass1fybot").length ≠ "@pass1fybot".length := by
  refine ⟨by decide, by decide, by decide, by decide⟩

/-- C7 counterexample: the entry "abc:def" has non-numeric ids, yet the
parser keeps it as a route whose ids are `NaN` instead of excluding it. -/
theorem parser_keeps_non_numeric_entry :
    parseMultiChannelConfig "abc:def" =
      [{ sourceId := none, sourceTopicId := none, targetChannelId := none,
         targetTopicId := none, searchKeyword := none }]
    ∧ parseMultiChannelConfig "abc:def" ≠ [] := by
  refine ⟨by decide, by decide⟩

/-- C7 (amended): the multi-channel parser produces, for each entry whose
source and target positions are non-empty after trimming, exactly the
route whose fields are the `parseInt` values of the colon-separated
positions (4-part or 3-part layout); entries with a missing or empty
source or target are excluded; entries with non-numeric ids are kept with
`NaN` fields; and the parser throws exactly when `CHANNELS_CONFIG` is
set and the combined search + multi-channel route list is empty. -/
theorem parser_entry_characterization :
    (∀ cfg : String, parseMultiChannelConfig cfg = (jsSplit ',' cfg).filterMap routeOfEntry)
    ∧ (∀ searchEnv channelsEnv sourceEnv targetEnv : Option String,
        jsIsError (parseConfiguration searchEnv channelsEnv sourceEnv targetEnv) =
          (jsTruthyStr channelsEnv &&
            ((if jsTruthyStr searchEnv then parseSearchConfig (searchEnv.getD "") else [])
              ++ parseMultiChannelConfig (channelsEnv.getD "")).isEmpty)) := by
  constructor
  · intro cfg
    rw [parseMultiChannelConfig, foldl_multiChannelStep]
    simp
  · intro se ce srcE tgtE
    rw [parseConfiguration]
    by_cases hce : jsTruthyStr ce
    · simp only [hce, if_true]
      generalize ((if jsTruthyStr se then parseSearchConfig (se.getD "") else [])
          ++ parseMultiChannelConfig (ce.getD "")) = L
      cases L with
      | nil => simp [jsIsError]
      | cons a as => simp [jsIsError]
    · simp only [hce, if_false, Bool.false_and]
      by_cases hlen : (if jsTruthyStr se then parseSearchConfig (se.getD "") else []).length = 0
      · simp [hlen, jsIsError]
      · simp [hlen, jsIsError]

/-- C9: at most one consumer loop runs at a time. `startProcessing`
returns immediately with no dispatch when the running flag is set; started
from an idle state it consumes until the queue is empty (every queue
observed while the loop holds the flag is non-empty) and ends idle with
the flag cleared; an enqueue performed while idle restarts the loop and
drains the queue including the new unit; an enqueue performed while the
loop runs only appends and spawns no second consumer. -/
theorem single_consumer_loop {α : Type} (oracle : QueuedMessage α → SendOutcome) :
    (∀ s : QueueState α, s.isProcessingQueue = true → startProcessing oracle s = (s, []))
    ∧ (∀ s : QueueState α, s.isProcessingQueue = false →
        (startProcessing oracle s).1.messageQueue = []
        ∧ (startProcessing oracle s).1.isProcessingQueue = false
        ∧ (startProcessing oracle s).2 = processQueueAux oracle s.messageQueue
        ∧ ∀ q ∈ loopQueues oracle s.messageQueue, q ≠ [])
    ∧ (∀ (s : QueueState α) (m : QueuedMessage α), s.isProcessingQueue = false →
        addToQueue oracle m s =
          (⟨[], false⟩, processQueueAux oracle (s.messageQueue ++ [m])))
    ∧ (∀ (s : QueueState α) (m : QueuedMessage α), s.isProcessingQueue = true →
        addToQueue oracle m s = (⟨s.messageQueue ++ [m], true⟩, [])) := by
  refine ⟨?_, ?_, ?_, ?_⟩
  · intro s hs
    simp [startProcessing, hs]
  · intro s hs
    refine ⟨?_, ?_, ?_, ?_⟩
    · simp [startProcessing, hs]
    · simp [startProcessing, hs]
    · simp [startProcessing, hs]
    · exact loopQueues_ne_nil oracle (queueMeasure s.messageQueue) s.messageQueue (le_refl _)
  · intro s m hs
    simp [addToQueue, startProcessing, hs]
  · intro s m hs
    simp [addToQueue, hs]

/-- C1 witness: a concrete three-unit queue in which unit 1 flood-fails on
its first attempt and succeeds on the retry; the observed dispatch order
is 1 (fail), 1 (retry), 2, 3. -/
theorem sendQueue_fifo_floodwait_front_witness :
    processQueueAux
        (fun m : QueuedMessage Nat =>
          if m.payload = 1 ∧ m.retryCount = none then
            .err { ctorName := "FloodWaitError"
                   message := some "A wait of 10 seconds is required" }
          else .ok)
        [{ payload := 1, retryCount := none }, { payload := 2, retryCount := none },
         { payload := 3, retryCount := none }] =
      [({ payload := 1, retryCount := none },
        .err { ctorName := "FloodWaitError"
               message := some "A wait of 10 seconds is required" }),
       ({ payload := 1, retryCount := some 1 }, .ok),
       ({ payload := 2, retryCount := none }, .ok),
       ({ payload := 3, retryCount := none }, .ok)] :=
  sendQueue_fifo_floodwait_front _ _ _ _ _ rfl rfl (by decide) rfl rfl rfl

/-- C2 witness: a unit that flood-fails on all four attempts is dropped
after the fourth, the following unit is still processed, and the unit is
attempted exactly 4 = MAX_RETRY_ATTEMPTS + 1 times. -/
theorem sendQueue_drops_after_max_retries_witness :
    processQueueAux
        (fun m : QueuedMessage Nat =>
          if m.payload = 1 then
            .err { ctorName := "FloodWaitError"
                   message := some "A wait of 30 seconds is required" }
          else .ok)
        [{ payload := 1, retryCount := none }, { payload := 2, retryCount := none }] =
      [({ payload := 1, retryCount := none },
        .err { ctorName := "FloodWaitError"
               message := some "A wait of 30 seconds is required" }),
       ({ payload := 1, retryCount := some 1 },
        .err { ctorName := "FloodWaitError"
               message := some "A wait of 30 seconds is required" }),
       ({ payload := 1, retryCount := some 2 },
        .err { ctorName := "FloodWaitError"
               message := some "A wait of 30 seconds is required" }),
       ({ payload := 1, retryCount := some 3 },
        .err { ctorName := "FloodWaitError"
               message := some "A wait of 30 seconds is required" })]
        ++ processQueueAux
            (fun m : QueuedMessage Nat =>
              if m.payload = 1 then
                .err { ctorName := "FloodWaitError"
                       message := some "A wait of 30 seconds is required" }
              else .ok)
            [{ payload := 2, retryCount := none }]
    ∧ attemptsFor 1
        (processQueueAux
          (fun m : QueuedMessage Nat =>
            if m.payload = 1 then
              .err { ctorName := "FloodWaitError"
                     message := some "A wait of 30 seconds is required" }
            else .ok)
          [{ payload := 1, retryCount := none }, { payload := 2, retryCount := none }])
      = MAX_RETRY_ATTEMPTS + 1 :=
  sendQueue_drops_after_max_retries _ _ _ _ _ _ _ rfl rfl (by decide) rfl (by decide)
    rfl (by decide) rfl (by decide) (by decide)

/-- C3 witness: a unit whose dispatch fails with a permission error (not a
flood-wait signal) is dropped and the queue continues unchanged. -/
theorem sendQueue_non_floodwait_dropped_witness :
    processQueueAux (fun _ : QueuedMessage Nat =>
          .err { ctorName := "Error", message := some "CHAT_WRITE_FORBIDDEN" })
        [{ payload := 1, retryCount := none }] =
      ({ payload := 1, retryCount := none },
        .err { ctorName := "Error", message := some "CHAT_WRITE_FORBIDDEN" })
        :: processQueueAux (fun _ : QueuedMessage Nat =>
            .err { ctorName := "Error", message := some "CHAT_WRITE_FORBIDDEN" }) []
    ∧ handleSendError { ctorName := "Error", message := some "CHAT_WRITE_FORBIDDEN" }
        { payload := (1 : Nat), retryCount := none } [] = [] :=
  ⟨(sendQueue_non_floodwait_dropped (fun _ : QueuedMessage Nat =>
        .err { ctorName := "Error", message := some "CHAT_WRITE_FORBIDDEN" })
      _ _ _ rfl (by decide)).1,
   (sendQueue_non_floodwait_dropped (fun _ : QueuedMessage Nat =>
        .err { ctorName := "Error", message := some "CHAT_WRITE_FORBIDDEN" })
      _ _ _ rfl (by decide)).2.1⟩

/-- C9 witness: with the flag held, `startProcessing` and a concurrent
enqueue are no-ops apart from the append; from an idle one-unit state the
loop drains the queue. -/
theorem single_consumer_loop_witness :
    startProcessing (fun _ : QueuedMessage Nat => .ok)
        { messageQueue := [{ payload := 1, retryCount := none }], isProcessingQueue := true }
      = ({ messageQueue := [{ payload := 1, retryCount := none }],
           isProcessingQueue := true }, [])
    ∧ (startProcessing (fun _ : QueuedMessage Nat => .ok)
        { messageQueue := [{ payload := 1, retryCount := none }],
          isProcessingQueue := false }).1.messageQueue = []
    ∧ addToQueue (fun _ : QueuedMessage Nat => .ok) { payload := 2, retryCount := none }
        { messageQueue := [{ payload := 1, retryCount := none }], isProcessingQueue := true }
      = ({ messageQueue := [{ payload := 1, retryCount := none },
                            { payload := 2, retryCount := none }],
           isProcessingQueue := true }, []) :=
  ⟨(single_consumer_loop (fun _ : QueuedMessage Nat => .ok)).1 _ rfl,
   ((single_consumer_loop (fun _ : QueuedMessage Nat => .ok)).2.1 _ rfl).1,
   (single_consumer_loop (fun _ : QueuedMessage Nat => .ok)).2.2.2 _ _ rfl⟩
